import Mathlib

/-!
# Verification of the tray-runner scheduling and execution engine

Shallow embedding of the core of `tray_runner` (files `config.py`,
`execution_manager.py`, `common_utils/common.py`) and proofs about it.

Conventions:
* `datetime` values are modelled as rational numbers (seconds since the
  epoch, UTC); where only whole seconds matter (the scheduler) we use `Int`.
* Python `Optional[T]` is `Option T`; Python code that can raise is
  embedded in `Except String`.
* Each definition carries a comment pointing at the source lines it
  translates.
-/

set_option autoImplicit false

namespace TrayRunner

/-! ## The persisted status type (config.py, lines 29-34)

`class ConfigCommandExecutionStatus(str, Enum)` defines exactly the four
members `RUNNING`, `STOPPED`, `FAILED`, `RUN`. -/

inductive ConfigCommandExecutionStatus where
  | RUNNING
  | STOPPED
  | FAILED
  | RUN
deriving DecidableEq

/-- Python attribute lookup on the enum class `ConfigCommandExecutionStatus`:
`getattr(ConfigCommandExecutionStatus, name)` returns the member when it
exists and raises `AttributeError` (here: `none`) otherwise.  The member
list is exactly the one of config.py lines 31-34. -/
def statusAttr : String → Option ConfigCommandExecutionStatus
  | "RUNNING" => some .RUNNING
  | "STOPPED" => some .STOPPED
  | "FAILED" => some .FAILED
  | "RUN" => some .RUN
  | _ => none

/-! ## Run log entries (config.py, lines 48-68)

`ConfigCommandExecutionResult`: one entry of a command's run log.
Timestamps and durations are rationals (seconds). -/

structure ConfigCommandExecutionResult where
  uuid : String
  status : ConfigCommandExecutionStatus
  start_time : ℚ
  end_time : Option ℚ
  pid : Option Int
  exit_code : Option Int
  stdout : Option String
  stderr : Option String
  fail_message : Option String
  stack_trace : Option String
deriving DecidableEq

/-- The `duration` property (config.py lines 64-68): `end_time - start_time`
when `end_time` is set, else `None` (a `datetime` is always truthy, so the
Python guard `if self.start_time and self.end_time` reduces to
`end_time is not None`). -/
def ConfigCommandExecutionResult.duration (r : ConfigCommandExecutionResult) : Option ℚ :=
  r.end_time.map (fun e => e - r.start_time)

/-! ## Rolling statistics (config.py, lines 195-206 and 289-312) -/

/-- The statistics fields of `ConfigCommand` that `set_execution_results`
mutates. -/
structure CommandStats where
  total_runs : Nat
  ok_runs : Nat
  error_runs : Nat
  failed_runs : Nat
  last_successful_run_dt : Option ℚ
  last_error_run_dt : Option ℚ
  last_fail_run_dt : Option ℚ
  min_duration : Option ℚ
  max_duration : Option ℚ
  avg_duration : Option ℚ
deriving DecidableEq

/-- Python comparison `d > M` where `d : Optional[float]`: comparing `None`
with a number raises `TypeError`. -/
def pyGtOpt (d : Option ℚ) (m : ℚ) : Except String Bool :=
  match d with
  | some x => .ok (decide (m < x))
  | none => .error "TypeError: not supported between instances of NoneType and float"

/-- Python comparison `d < M` for `d : Optional[float]`. -/
def pyLtOpt (d : Option ℚ) (m : ℚ) : Except String Bool :=
  match d with
  | some x => .ok (decide (x < m))
  | none => .error "TypeError: not supported between instances of NoneType and float"

/-- `ConfigCommand.set_execution_results` (config.py lines 289-312),
translated line by line.  Note the source increments `ok_runs`
(line 300) *before* using it in the running-average update (line 307),
so the average update divides by `ok_runs + 1` where `ok_runs` is the
already-incremented counter. -/
def set_execution_results (c : CommandStats) (item : ConfigCommandExecutionResult) :
    Except String CommandStats := do
  -- line 294: self.total_runs += 1
  let c := { c with total_runs := c.total_runs + 1 }
  if item.status = .FAILED then
    -- lines 295-297
    return { c with failed_runs := c.failed_runs + 1, last_fail_run_dt := some item.start_time }
  else if item.status = .RUN then
    if item.exit_code = some 0 then
      -- lines 299-301 (ok_runs incremented here, before the duration updates)
      let c := { c with ok_runs := c.ok_runs + 1, last_successful_run_dt := some item.start_time }
      -- lines 302-303: if self.max_duration is None or item.duration > self.max_duration
      let c ← match c.max_duration with
        | none => pure { c with max_duration := item.duration }
        | some m => do
            let b ← pyGtOpt item.duration m
            pure (if b then { c with max_duration := item.duration } else c)
      -- lines 304-305: if self.min_duration is None or item.duration < self.min_duration
      let c ← match c.min_duration with
        | none => pure { c with min_duration := item.duration }
        | some m => do
            let b ← pyLtOpt item.duration m
            pure (if b then { c with min_duration := item.duration } else c)
      -- lines 306-309: the incremental-average update; `self.ok_runs` is the
      -- post-increment value here
      match c.avg_duration with
      | some a =>
          match item.duration with
          | some d => return { c with avg_duration := some ((a * c.ok_runs + d) / (c.ok_runs + 1)) }
          | none => .error "TypeError: unsupported operand for NoneType"
      | none => return { c with avg_duration := item.duration }
    else
      -- lines 310-312
      return { c with error_runs := c.error_runs + 1, last_error_run_dt := some item.start_time }
  else
    -- RUNNING / STOPPED entries only bump total_runs
    return c

/-! ## The run log store (config.py, lines 351-394) -/

/-- The field copy in `save_log` (config.py lines 363-371): every field of
the matched entry except `uuid` is overwritten from `item`. -/
def updateLogFields (log item : ConfigCommandExecutionResult) : ConfigCommandExecutionResult :=
  { log with
    start_time := item.start_time
    end_time := item.end_time
    status := item.status
    pid := item.pid
    exit_code := item.exit_code
    stdout := item.stdout
    stderr := item.stderr
    fail_message := item.fail_message
    stack_trace := item.stack_trace }

/-- The `for ... else` upsert of `save_log` (config.py lines 361-374): the
first entry whose `uuid` matches `item.uuid` is updated in place and the
scan stops (`break`); when no entry matches, `item` is appended. -/
def upsertByUuid (item : ConfigCommandExecutionResult) :
    List ConfigCommandExecutionResult → List ConfigCommandExecutionResult
  | [] => [item]
  | log :: rest =>
      if log.uuid = item.uuid then updateLogFields log item :: rest
      else log :: upsertByUuid item rest

/-- Python slice `xs[-n:]`.  Note the Python pitfall: `xs[-0:]` is the whole
list, so `n = 0` keeps everything. -/
def pySliceLast {α : Type} (n : Nat) (xs : List α) : List α :=
  if n = 0 then xs else xs.drop (xs.length - n)

/-- The truncation step of `save_logs` (config.py lines 381-383):
`if len(logs.items) > self.max_log_count: logs.items = logs.items[-self.max_log_count:]`. -/
def truncateLogs (maxLogCount : Nat) (items : List ConfigCommandExecutionResult) :
    List ConfigCommandExecutionResult :=
  if maxLogCount < items.length then pySliceLast maxLogCount items else items

/-- The effect of one `save_log` call (config.py lines 351-377) on the stored
log items: read the current items, upsert by uuid, truncate to the bound.
(The statistics side effect of line 356 is `set_execution_results` above;
it does not touch the log items.) -/
def save_log_items (maxLogCount : Nat) (items : List ConfigCommandExecutionResult)
    (item : ConfigCommandExecutionResult) : List ConfigCommandExecutionResult :=
  truncateLogs maxLogCount (upsertByUuid item items)

/-! ## Reading the log file (config.py, lines 314-349)

`get_logs` reads the per-command log file.  We model the file system state
seen by one command's log path: the file is missing, parses (after the
v0-to-v1 migration) to a log object, or is corrupt (`json.load` or the
model validation raises).  The whole read is wrapped in
`try ... except Exception` in the source, so the embedded function is
total: no failure escapes it. -/

structure ConfigCommandLog where
  version : Option Int
  items : List ConfigCommandExecutionResult
deriving DecidableEq

/-- `ConfigCommandLog()` with pydantic defaults (config.py lines 83-89). -/
def emptyCommandLog : ConfigCommandLog := ⟨none, []⟩

inductive LogFileState where
  | missing
  | corrupt (raw : String)
  | parsed (log : ConfigCommandLog)
deriving DecidableEq

/-- The file-system state relevant to one command's log: the content at the
log path, plus the backup files created so far (name and raw content). -/
structure LogFs where
  current : LogFileState
  backups : List (String × String)
deriving DecidableEq

/-- `ConfigCommand.get_logs` (config.py lines 314-349).

Inputs: `path` is `get_log_file_path()`; `now` is the wall clock available
to the code at call time (the source never consults it — line 342 builds
the backup name from `uuid.uuid4()` instead); `freshUuid` is the value of
`str(uuid.uuid4())` drawn at line 342; `renameFails` is whether the
`os.rename` at line 345 raises; `fs` is the file state.

* missing file (line 320 guard): empty log, file system untouched;
* parse success: the parsed log;
* corrupt file (lines 341-347): empty log, and the broken file is renamed
  to `path + "-" + freshUuid`, preserving its raw content as a backup;
  when the rename itself raises, the inner handler at lines 346-347 logs
  and swallows that error too — the empty log is still returned, but the
  corrupt file stays in place and no backup exists. -/
def get_logs (path : String) (now : Int) (freshUuid : String) (renameFails : Bool)
    (fs : LogFs) : ConfigCommandLog × LogFs :=
  match fs.current with
  | .missing => (emptyCommandLog, fs)
  | .parsed l => (l, fs)
  | .corrupt raw =>
      let _ := now
      if renameFails then (emptyCommandLog, ⟨.corrupt raw, fs.backups⟩)
      else (emptyCommandLog, ⟨.missing, (path ++ "-" ++ freshUuid, raw) :: fs.backups⟩)

/-- Result of one `save_logs` call (config.py lines 379-394), as seen by its
caller: the file was replaced with the serialized log, or the write failed
but was swallowed (save_logs returns normally; the atomic file commits
whatever partial data was written — best effort), or an exception escaped
save_logs. -/
inductive SaveLogsResult where
  | written (items : List ConfigCommandExecutionResult)
  | writeFailedSwallowed
  | raised (msg : String)
deriving DecidableEq

/-- `ConfigCommand.save_logs` (config.py lines 379-394): truncate the items
(lines 381-383), create the log directory if missing (lines 385-387 —
unguarded, an OSError here raises out of save_logs), open the file
atomically (line 390 — unguarded, an OSError here raises out of
save_logs), then write the serialized log, where *only* this write call is
inside a try/except (lines 391-394): a write failure is logged and
swallowed. -/
def save_logs (maxLogCount : Nat) (items : List ConfigCommandExecutionResult)
    (makedirsRaises openRaises writeRaises : Bool) : SaveLogsResult :=
  let items := truncateLogs maxLogCount items
  if makedirsRaises then .raised "OSError: makedirs"
  else if openRaises then .raised "OSError: open"
  else if writeRaises then .writeFailedSwallowed
  else .written items

/-! ## The scheduler (config.py, lines 237-271)

`ConfigCommand.get_next_execution_dt`.  Timestamps are integers (UTC
seconds).  The period loop (lines 252-254) terminates only for a positive
period; a non-positive `period_seconds` with a past candidate makes the
Python loop spin forever, so the embedding is defined on the terminating
domain `0 < period_seconds`, passed as an explicit proof. -/

inductive ConfigCommandScheduleMode where
  | PERIOD
  | CRON
  | APP_START
  | SYSTEM_START
  | MANUAL
deriving DecidableEq

/-- The `while next_dt < now: next_dt = next_dt + timedelta(seconds=self.period_seconds)`
loop of config.py lines 252-254. -/
def periodAdvance (P now : Int) (hP : 0 < P) (next : Int) : Int :=
  if next < now then periodAdvance P now hP (next + P) else next
termination_by (now - next).toNat
decreasing_by omega

/-- Abstract model of `croniter(cron_expr)` composed with the
local-time round trip of config.py lines 264 and 267
(`ensure_local_datetime` / `astimezone(pytz.UTC).replace(tzinfo=None)`,
which preserve the absolute instant): `next t` is the first cron tick
strictly after instant `t`, and every value returned lies on the grid. -/
structure CronGrid where
  isTick : Int → Prop
  next : Int → Int
  h_gt : ∀ t, t < next t
  h_tick : ∀ t, isTick (next t)

/-- The `while next_dt < now: next_dt = croniter(...).get_next(...)` loop of
config.py lines 265-267. -/
def cronAdvance (g : CronGrid) (now : Int) (next : Int) : Int :=
  if next < now then cronAdvance g now (g.next next) else next
termination_by (now - next).toNat
decreasing_by have := g.h_gt next; omega

/-- Python truthiness of `self.cron_expr : Optional[str]` (config.py
line 261): `None` and `""` are falsy. -/
def pyTruthyStr : Option String → Bool
  | none => false
  | some s => s ≠ ""

/-- `ConfigCommand.get_next_execution_dt` (config.py lines 237-271), with
the prior-run lookup abstracted into the `start_date` argument (the source
defaults it to `last_status.start_time` when available, line 245-246).

Returns `.ok none` for a disabled command (line 241-242), `.ok (some t)`
for a computed next run, and `.error` for the two `raise Exception(...)`
statements (lines 269 and 271). -/
def get_next_execution_dt (disabled : Bool) (schedule_mode : ConfigCommandScheduleMode)
    (period_seconds : Int) (hP : 0 < period_seconds) (cron_expr : Option String)
    (g : CronGrid) (start_date : Option Int) (now : Int) : Except String (Option Int) :=
  if disabled then .ok none
  else
    match schedule_mode with
    | .PERIOD =>
        -- lines 248-255
        match start_date with
        | none => .ok (some now)
        | some sd => .ok (some (periodAdvance period_seconds now hP (sd + period_seconds)))
    | .CRON =>
        -- lines 257-269
        if pyTruthyStr cron_expr then
          let sd := start_date.getD now
          .ok (some (cronAdvance g now (g.next sd)))
        else .error "Command schedule mode is CRON, but no cron_expr set."
    | _ => .error "Invalid schedule mode."

/-! ## The process runner (common.py, lines 54-113)

`run_command`'s stop path (lines 84-104): when the stop event is observed
while polling, the child is terminated (with a 3 second grace period and a
kill fallback), its remaining output is drained, and the function returns
the same `(pid, exit_code, stdout, stderr)` tuple shape as a normal
completion — there is no distinguished "aborted" return. -/

/-- `s.strip() if s.strip() else None` (common.py lines 104 and 113). -/
def stripOrNone (s : String) : Option String :=
  if s.trim = "" then none else some s.trim

/-- The tuple returned by `run_command`. -/
structure RunTuple where
  pid : Int
  exit_code : Int
  stdout : Option String
  stderr : Option String
deriving DecidableEq

/-- The observable state of the child process once the stop path has
terminated it: its pid, the exit status reported after terminate/kill
(e.g. `-15` for SIGTERM on POSIX), and the drained output streams. -/
structure StoppedProcess where
  pid : Int
  returncode : Int
  stdout : String
  stderr : String

/-- `run_command` when the stop event is observed mid-run (common.py lines
84-104): a normal return tuple built from the terminated process. -/
def run_command_on_stop (p : StoppedProcess) : RunTuple :=
  ⟨p.pid, p.returncode, stripOrNone p.stdout, stripOrNone p.stderr⟩

/-! ## Classifying an execution (execution_manager.py, lines 85-112)

`BaseCommandThread.execute_command`, inner `try` block (lines 92-109).
The run either completes with a tuple from `run_command`, or
`run_command` raises.  On completion the source assigns
`ConfigCommandExecutionStatus.ERROR` (line 96) or
`ConfigCommandExecutionStatus.SUCCESS` (line 98) — members the enum of
config.py does not define, so in Python the attribute access raises
`AttributeError` *before* lines 99-102 run; the handler at lines 104-108
then records the run as `FAILED` with the error text, leaving `pid`,
`exit_code`, `stdout` and `stderr` unset. -/

inductive RunOutcome where
  | completed (t : RunTuple)
  | raised (msg : String)

/-- The `ConfigCommandExecutionResult` produced by the inner try/except of
`execute_command` (execution_manager.py lines 88-109) for a run with the
given uuid, start time and end time. -/
def execute_result (uuid : String) (start endt : ℚ) (o : RunOutcome) :
    ConfigCommandExecutionResult :=
  match o with
  | .raised msg =>
      -- lines 104-108: run_command itself raised
      { uuid := uuid, status := .FAILED, start_time := start, end_time := some endt
        pid := none, exit_code := none, stdout := none, stderr := none
        fail_message := some msg, stack_trace := some msg }
  | .completed t =>
      -- line 95: `if exit_code:` — truthiness of the int exit code
      match (if t.exit_code ≠ 0 then statusAttr "ERROR" else statusAttr "SUCCESS") with
      | some st =>
          -- lines 94-102 as intended when the member exists
          { uuid := uuid, status := st, start_time := start, end_time := some endt
            pid := some t.pid, exit_code := some t.exit_code, stdout := t.stdout
            stderr := t.stderr, fail_message := none, stack_trace := none }
      | none =>
          -- the AttributeError path: lines 99-102 never execute, the handler
          -- at lines 104-108 overwrites status and fail_message
          { uuid := uuid, status := .FAILED, start_time := start, end_time := some endt
            pid := none, exit_code := none, stdout := none, stderr := none
            fail_message := some "AttributeError: SUCCESS is not a member of ConfigCommandExecutionStatus"
            stack_trace := some "AttributeError" }

/-- The attribute names a `ConfigCommand` instance defines: the pydantic
fields declared at config.py lines 163-208 and the methods and properties
declared at lines 210-422.  `add_log` and `current_start_dt` are not among
them (and `current_status` is a read-only property), although
execution_manager.py lines 89-91 uses all three. -/
def configCommandAttrNames : List String :=
  ["name", "description", "disabled", "max_log_count", "working_directory",
   "run_mode", "command", "script_interpreter", "script", "run_at_startup",
   "run_at_startup_if_missing_previous_run", "schedule_mode", "period_seconds",
   "cron_expr", "startup_delay_seconds", "run_in_shell",
   "include_output_in_notifications", "show_complete_notifications",
   "show_error_notifications", "environment", "id", "total_runs", "ok_runs",
   "error_runs", "failed_runs", "last_successful_run_dt", "last_error_run_dt",
   "last_fail_run_dt", "min_duration", "max_duration", "avg_duration",
   "next_run_dt", "last_status", "current_status", "status_color",
   "get_next_execution_dt", "environment_as_dict", "get_log_file_path",
   "set_execution_results", "get_logs", "save_log", "save_logs",
   "get_warnings", "get_warnings_as_tuples"]

/-- Python attribute lookup on a `ConfigCommand` instance: `AttributeError`
(here `.error`) when the name is not defined on the class. -/
def configCommandAttr (name : String) : Except String Unit :=
  if name ∈ configCommandAttrNames then .ok ()
  else .error ("AttributeError: ConfigCommand object has no attribute " ++ name)

/-- The body of `execute_command` from the point a command is about to run
(execution_manager.py lines 85-112), as an `Except` pipeline over the
command's persisted log items and statistics.  Line 88 builds the RUNNING
entry in memory only — no persistent write.  Line 89 then calls
`self.command.add_log(result)`: `ConfigCommand` defines no `add_log`
attribute, so the lookup raises `AttributeError` here, before
`run_command` (line 93) can ever be invoked (lines 90-91 would likewise
raise: `current_status` is a read-only property and `current_start_dt` is
not a field).  The remainder of the pipeline — the classification of
lines 92-109 (`execute_result`) and the statistics and log-item effects of
`save_log` at line 112 — is therefore unreachable. -/
def execute_command_inner (maxLogCount : Nat) (uuid : String) (start endt : ℚ)
    (o : RunOutcome) (log : List ConfigCommandExecutionResult) (stats : CommandStats) :
    Except String (List ConfigCommandExecutionResult × CommandStats) := do
  let _ ← configCommandAttr "add_log"
  let r := execute_result uuid start endt o
  let stats' ← set_execution_results stats r
  return (save_log_items maxLogCount log r, stats')

/-- The worker's outer exception boundary (execution_manager.py lines 51 and
151-152): any exception raised inside the body of `execute_command` — the
`AttributeError` from the missing method, or a persistence failure
escaping `save_logs` — is caught there and only logged; the thread
returns normally with whatever effects had already been performed
(`onError`). -/
def workerRunBoundary {α : Type} (body : Except String α) (onError : α) : α :=
  match body with
  | .ok a => a
  | .error _ => onError

/-- One full `execute_command` invocation (execution_manager.py lines
48-155) in terms of its persistent effects on the command's log items and
statistics.  No persistent write happens before the raise at line 89, so
on an exception the unchanged state is what persists. -/
def execute_command (maxLogCount : Nat) (uuid : String) (start endt : ℚ)
    (o : RunOutcome) (log : List ConfigCommandExecutionResult) (stats : CommandStats) :
    List ConfigCommandExecutionResult × CommandStats :=
  workerRunBoundary (execute_command_inner maxLogCount uuid start endt o log stats)
    (log, stats)

/-! ## The execution manager registry (execution_manager.py, lines 264-325)

`ExecutionManager.running_threads` is a plain list of command threads.  We
model each thread by the id of its command and its kind; `BaseModel`
equality on `ConfigCommand` is field equality, so two threads for the same
command compare equal by id. -/

inductive ThreadKind where
  | oneShot
  | scheduled
deriving DecidableEq

structure CommandThread where
  cmdId : String
  kind : ThreadKind
deriving DecidableEq

/-- The configuration fields of a command that drive the manager. -/
structure CommandCfg where
  id : String
  disabled : Bool
  schedule_mode : ConfigCommandScheduleMode
deriving DecidableEq

abbrev ManagerState := List CommandThread

/-- `ExecutionManager.stop_command_thread` (lines 310-321): scan the thread
list, stop/join/remove the *first* thread whose command matches, then
`break`. -/
def removeFirstById : ManagerState → String → ManagerState
  | [], _ => []
  | t :: rest, cid => if t.cmdId = cid then rest else t :: removeFirstById rest cid

/-- `ExecutionManager.ensure_command_status` (lines 280-303): stop any
existing thread for the command, then start at most one new thread
according to the schedule mode and the autostart flags. -/
def ensure_command_status (st : ManagerState) (cmd : CommandCfg)
    (is_system_autostart is_app_autostart : Bool) : ManagerState :=
  let st := removeFirstById st cmd.id
  if cmd.disabled then st
  else if cmd.schedule_mode = .SYSTEM_START ∧ is_system_autostart then
    st ++ [⟨cmd.id, .oneShot⟩]
  else if cmd.schedule_mode = .APP_START ∧ is_app_autostart then
    st ++ [⟨cmd.id, .oneShot⟩]
  else if cmd.schedule_mode = .CRON ∨ cmd.schedule_mode = .PERIOD then
    st ++ [⟨cmd.id, .scheduled⟩]
  else st

/-- `ExecutionManager.start_command` (lines 305-308): unconditionally append
and start a fresh one-shot thread — no stop, no lookup. -/
def start_command (st : ManagerState) (cmd : CommandCfg) : ManagerState :=
  st ++ [⟨cmd.id, .oneShot⟩]

/-- Number of live workers registered for a command id. -/
def liveWorkerCount (st : ManagerState) (cid : String) : Nat :=
  (st.filter (fun t => t.cmdId = cid)).length

/-! ## Concrete fixtures used by witnesses and counterexamples -/

/-- A concrete cron grid: ticks at every multiple of 60 seconds, the grid of
the expression `* * * * *`. -/
def grid60 : CronGrid where
  isTick t := (60 : Int) ∣ t
  next t := 60 * (t / 60 + 1)
  h_gt t := by show t < 60 * (t / 60 + 1); omega
  h_tick t := ⟨t / 60 + 1, by ring⟩

/-- A concrete enabled PERIOD command for the manager fixtures. -/
def cmdDemo : CommandCfg := ⟨"cmd-1", false, .PERIOD⟩

/-- Statistics of a command that has never run. -/
def statsFresh : CommandStats :=
  ⟨0, 0, 0, 0, none, none, none, none, none, none⟩

/-- Statistics after exactly one successful run of duration 2.0 seconds. -/
def statsOne : CommandStats :=
  ⟨1, 1, 0, 0, some 0, none, none, some 2, some 2, some 2⟩

/-- A successful run entry of duration 2.0 seconds (exit code 0). -/
def itemDur2 : ConfigCommandExecutionResult :=
  { uuid := "r1", status := .RUN, start_time := 0, end_time := some 2, pid := some 41
    exit_code := some 0, stdout := none, stderr := none
    fail_message := none, stack_trace := none }

/-- A successful run entry of duration 4.0 seconds (exit code 0). -/
def itemDur4 : ConfigCommandExecutionResult :=
  { uuid := "r2", status := .RUN, start_time := 10, end_time := some 14, pid := some 42
    exit_code := some 0, stdout := none, stderr := none
    fail_message := none, stack_trace := none }

/-- A log entry with uuid `"a"`. -/
def entryA : ConfigCommandExecutionResult :=
  { uuid := "a", status := .RUN, start_time := 0, end_time := some 1, pid := none
    exit_code := some 0, stdout := none, stderr := none
    fail_message := none, stack_trace := none }

/-- A log entry with uuid `"b"`. -/
def entryB : ConfigCommandExecutionResult := { entryA with uuid := "b" }

/-! ## Scheduler lemmas -/

/-- The period loop never stops before `now`. -/
theorem periodAdvance_ge (P now : Int) (hP : 0 < P) (next : Int) :
    now ≤ periodAdvance P now hP next := by
  induction next using periodAdvance.induct P now hP with
  | case1 next h ih => rw [periodAdvance, if_pos h]; exact ih
  | case2 next h => rw [periodAdvance, if_neg h]; omega

/-- The period loop only ever adds multiples of the period. -/
theorem periodAdvance_sub_dvd (P now : Int) (hP : 0 < P) (next : Int) :
    P ∣ periodAdvance P now hP next - next := by
  induction next using periodAdvance.induct P now hP with
  | case1 next h ih =>
      rw [periodAdvance, if_pos h]
      have : periodAdvance P now hP (next + P) - next
          = (periodAdvance P now hP (next + P) - (next + P)) + P := by ring
      rw [this]
      exact dvd_add ih dvd_rfl
  | case2 next h => rw [periodAdvance, if_neg h]; simp

/-- Started below `now + P`, the period loop stays below `now + P`. -/
theorem periodAdvance_lt (P now : Int) (hP : 0 < P) (next : Int) (h : next < now + P) :
    periodAdvance P now hP next < now + P := by
  induction next using periodAdvance.induct P now hP with
  | case1 next hlt ih => rw [periodAdvance, if_pos hlt]; exact ih (by omega)
  | case2 next hlt => rw [periodAdvance, if_neg hlt]; exact h

/-- The cron loop never stops before `now`. -/
theorem cronAdvance_ge (g : CronGrid) (now next : Int) :
    now ≤ cronAdvance g now next := by
  induction next using cronAdvance.induct g now with
  | case1 next h ih => rw [cronAdvance, if_pos h]; exact ih
  | case2 next h => rw [cronAdvance, if_neg h]; omega

/-- The cron loop stays on the cron grid. -/
theorem cronAdvance_tick (g : CronGrid) (now next : Int) (h : g.isTick next) :
    g.isTick (cronAdvance g now next) := by
  induction next using cronAdvance.induct g now with
  | case1 next hlt ih => rw [cronAdvance, if_pos hlt]; exact ih (g.h_tick next)
  | case2 next hlt => rw [cronAdvance, if_neg hlt]; exact h

/-- Positivity of the default period (600 seconds), used to instantiate the
scheduler at concrete inputs. -/
theorem int600_pos : (0 : Int) < 600 := by decide

/-- C3 counterexample: if the last run started exactly at `now` (T = 0,
now = 0, P = 600), the scheduler returns `T + P = now + P`, which violates
the claimed strict bound `next_run_at < now + P`.  The claim therefore
fails for `T ≥ now`. -/
theorem C3_period_upper_bound_fails_at_boundary :
    get_next_execution_dt false .PERIOD 600 int600_pos none grid60 (some 0) 0
      = .ok (some 600)
    ∧ ¬ ((600 : Int) < 0 + 600) := by
  constructor
  · simp only [get_next_execution_dt]
    rw [periodAdvance]
    norm_num
  · norm_num

/-- C3 (amended with the hypothesis that the last run started strictly
before `now`): for an enabled PERIOD command, no prior run means the
command is due immediately (`next = now`); a prior run started at `T < now`
yields `next = periodAdvance (T + P)` with `next ≥ now`,
`next ≡ T (mod P)` and `next < now + P`. -/
theorem C3_period_schedule_amended (P T now : Int) (expr : Option String) (g : CronGrid)
    (hP : 0 < P) (hT : T < now) :
    get_next_execution_dt false .PERIOD P hP expr g none now = .ok (some now)
    ∧ get_next_execution_dt false .PERIOD P hP expr g (some T) now
        = .ok (some (periodAdvance P now hP (T + P)))
    ∧ now ≤ periodAdvance P now hP (T + P)
    ∧ (periodAdvance P now hP (T + P) - T) % P = 0
    ∧ periodAdvance P now hP (T + P) < now + P := by
  refine ⟨rfl, rfl, periodAdvance_ge P now hP (T + P), ?_, ?_⟩
  · have h1 : P ∣ periodAdvance P now hP (T + P) - (T + P) :=
      periodAdvance_sub_dvd P now hP (T + P)
    have h2 : P ∣ periodAdvance P now hP (T + P) - T := by
      have hsplit : periodAdvance P now hP (T + P) - T
          = (periodAdvance P now hP (T + P) - (T + P)) + P := by ring
      rw [hsplit]
      exact dvd_add h1 dvd_rfl
    exact Int.emod_eq_zero_of_dvd h2
  · exact periodAdvance_lt P now hP (T + P) (by omega)

/-- Witness for `C3_period_schedule_amended` at P = 600, T = -10, now = 0:
the next run is 590, which is ≥ 0, ≡ -10 (mod 600) and < 600. -/
theorem C3_period_schedule_witness :
    ((0 : Int) < 600 ∧ (-10 : Int) < 0)
    ∧ (get_next_execution_dt false .PERIOD 600 int600_pos none grid60 none 0 = .ok (some 0)
      ∧ get_next_execution_dt false .PERIOD 600 int600_pos none grid60 (some (-10)) 0
          = .ok (some (periodAdvance 600 0 int600_pos (-10 + 600)))
      ∧ (0 : Int) ≤ periodAdvance 600 0 int600_pos (-10 + 600)
      ∧ (periodAdvance 600 0 int600_pos (-10 + 600) - (-10)) % 600 = 0
      ∧ periodAdvance 600 0 int600_pos (-10 + 600) < 0 + 600) :=
  ⟨⟨by decide, by decide⟩,
    C3_period_schedule_amended 600 (-10) 0 none grid60 int600_pos (by decide)⟩

/-- C7 counterexample: with the every-minute grid, a last run at -60 and
`now = 0` (now lies exactly on the grid), the scheduler returns 0 = now:
the claimed strict inequality `next_run_at > now` fails. -/
theorem C7_cron_next_can_equal_now :
    get_next_execution_dt false .CRON 600 int600_pos (some "* * * * *") grid60 (some (-60)) 0
      = .ok (some 0)
    ∧ ¬ ((0 : Int) < 0) ∧ grid60.isTick 0 := by
  refine ⟨?_, by norm_num, dvd_zero 60⟩
  have hnext : grid60.next (-60) = 0 := by norm_num [grid60]
  have hT : pyTruthyStr (some "* * * * *") = true := by decide
  simp only [get_next_execution_dt, hT, if_true, Bool.false_eq_true, if_false,
    Option.getD_some, hnext]
  rw [cronAdvance]
  norm_num

/-- C7 (amended: `≥ now` instead of strictly greater): for an enabled CRON
command with a non-empty expression, the result is the cron loop's value,
which is ≥ now (it can equal now exactly when now is on the grid) and lies
on the cron grid. -/
theorem C7_cron_schedule_amended (g : CronGrid) (P now : Int) (hP : 0 < P) (e : String)
    (he : e ≠ "") (sd : Option Int) :
    get_next_execution_dt false .CRON P hP (some e) g sd now
      = .ok (some (cronAdvance g now (g.next (sd.getD now))))
    ∧ now ≤ cronAdvance g now (g.next (sd.getD now))
    ∧ g.isTick (cronAdvance g now (g.next (sd.getD now))) := by
  refine ⟨?_, cronAdvance_ge g now _, cronAdvance_tick g now _ (g.h_tick _)⟩
  have hT : pyTruthyStr (some e) = true := by simp [pyTruthyStr, he]
  simp only [get_next_execution_dt, hT, if_true, Bool.false_eq_true, if_false]

/-- Witness for `C7_cron_schedule_amended` on the every-minute grid with a
last run at -120 and now = 0. -/
theorem C7_cron_schedule_witness :
    ("* * * * *" ≠ "")
    ∧ (get_next_execution_dt false .CRON 600 int600_pos (some "* * * * *") grid60
          (some (-120)) 0
        = .ok (some (cronAdvance grid60 0 (grid60.next ((some (-120) : Option Int).getD 0))))
      ∧ (0 : Int) ≤ cronAdvance grid60 0 (grid60.next ((some (-120) : Option Int).getD 0))
      ∧ grid60.isTick (cronAdvance grid60 0 (grid60.next ((some (-120) : Option Int).getD 0)))) :=
  ⟨by decide,
    C7_cron_schedule_amended grid60 600 0 int600_pos "* * * * *" (by decide) (some (-120))⟩

/-- C10: `get_next_execution_dt` returns `None` exactly for disabled
commands; for an enabled command it raises for APP_START, SYSTEM_START and
MANUAL modes and for CRON mode with an empty/absent expression, and it
returns a timestamp for PERIOD mode and for CRON mode with a non-empty
expression. -/
theorem C10_schedule_mode_dispatch (P : Int) (hP : 0 < P) (g : CronGrid)
    (expr : Option String) (sd : Option Int) (now : Int) :
    (∀ mode, get_next_execution_dt true mode P hP expr g sd now = .ok none)
    ∧ (∀ mode, (mode = .APP_START ∨ mode = .SYSTEM_START ∨ mode = .MANUAL) →
        get_next_execution_dt false mode P hP expr g sd now = .error "Invalid schedule mode.")
    ∧ get_next_execution_dt false .CRON P hP none g sd now
        = .error "Command schedule mode is CRON, but no cron_expr set."
    ∧ get_next_execution_dt false .CRON P hP (some "") g sd now
        = .error "Command schedule mode is CRON, but no cron_expr set."
    ∧ (∃ t, get_next_execution_dt false .PERIOD P hP expr g sd now = .ok (some t))
    ∧ (∀ e : String, e ≠ "" →
        ∃ t, get_next_execution_dt false .CRON P hP (some e) g sd now = .ok (some t)) := by
  refine ⟨fun mode => rfl, ?_, rfl, rfl, ?_, ?_⟩
  · rintro mode (rfl | rfl | rfl) <;> rfl
  · cases sd <;> exact ⟨_, rfl⟩
  · intro e he
    have hT : pyTruthyStr (some e) = true := by simp [pyTruthyStr, he]
    refine ⟨cronAdvance g now (g.next (sd.getD now)), ?_⟩
    simp only [get_next_execution_dt, hT, if_true, Bool.false_eq_true, if_false]

/-- Witness for `C10_schedule_mode_dispatch` at P = 600 on the
every-minute grid. -/
theorem C10_schedule_mode_dispatch_witness :
    ((0 : Int) < 600)
    ∧ ((∀ mode, get_next_execution_dt true mode 600 int600_pos (some "") grid60 (some 0) 5
          = .ok none)
      ∧ (∀ mode, (mode = .APP_START ∨ mode = .SYSTEM_START ∨ mode = .MANUAL) →
          get_next_execution_dt false mode 600 int600_pos (some "") grid60 (some 0) 5
            = .error "Invalid schedule mode.")
      ∧ get_next_execution_dt false .CRON 600 int600_pos none grid60 (some 0) 5
          = .error "Command schedule mode is CRON, but no cron_expr set."
      ∧ get_next_execution_dt false .CRON 600 int600_pos (some "") grid60 (some 0) 5
          = .error "Command schedule mode is CRON, but no cron_expr set."
      ∧ (∃ t, get_next_execution_dt false .PERIOD 600 int600_pos (some "") grid60 (some 0) 5
          = .ok (some t))
      ∧ (∀ e : String, e ≠ "" →
          ∃ t, get_next_execution_dt false .CRON 600 int600_pos (some e) grid60 (some 0) 5
            = .ok (some t))) :=
  ⟨by decide, C10_schedule_mode_dispatch 600 int600_pos grid60 (some "") (some 0) 5⟩

/-! ## Log store lemmas -/

@[simp] theorem updateLogFields_uuid (log item : ConfigCommandExecutionResult) :
    (updateLogFields log item).uuid = log.uuid := rfl

/-- When no stored entry carries the new entry's uuid, the upsert is a plain
append. -/
theorem upsertByUuid_of_fresh (item : ConfigCommandExecutionResult)
    (items : List ConfigCommandExecutionResult)
    (h : ∀ a ∈ items, a.uuid ≠ item.uuid) :
    upsertByUuid item items = items ++ [item] := by
  induction items with
  | nil => rfl
  | cons log rest ih =>
      rw [upsertByUuid, if_neg (h log (by simp))]
      rw [ih (fun a ha => h a (by simp [ha]))]
      simp

/-- Every uuid in the upserted list is the new entry's uuid or one already
present. -/
theorem uuid_mem_upsert (item b : ConfigCommandExecutionResult)
    (items : List ConfigCommandExecutionResult) (hb : b ∈ upsertByUuid item items) :
    b.uuid = item.uuid ∨ b.uuid ∈ items.map ConfigCommandExecutionResult.uuid := by
  induction items with
  | nil =>
      rw [upsertByUuid] at hb
      simp at hb
      subst hb
      exact Or.inl rfl
  | cons log rest ih =>
      by_cases hc : log.uuid = item.uuid
      · rw [upsertByUuid, if_pos hc] at hb
        rcases List.mem_cons.mp hb with rfl | hb'
        · exact Or.inl (by simpa using hc)
        · exact Or.inr (by simp; exact Or.inr ⟨b, hb', rfl⟩)
      · rw [upsertByUuid, if_neg hc] at hb
        rcases List.mem_cons.mp hb with rfl | hb'
        · exact Or.inr (by simp)
        · rcases ih hb' with h' | h'
          · exact Or.inl h'
          · exact Or.inr (by simp at h' ⊢; exact Or.inr h')

/-- The upsert preserves pairwise-distinct uuids. -/
theorem pairwise_upsertByUuid (item : ConfigCommandExecutionResult)
    (items : List ConfigCommandExecutionResult)
    (h : items.Pairwise (fun a b => a.uuid ≠ b.uuid)) :
    (upsertByUuid item items).Pairwise (fun a b => a.uuid ≠ b.uuid) := by
  induction items with
  | nil => simp [upsertByUuid]
  | cons log rest ih =>
      rw [List.pairwise_cons] at h
      obtain ⟨h1, h2⟩ := h
      by_cases hc : log.uuid = item.uuid
      · rw [upsertByUuid, if_pos hc, List.pairwise_cons]
        exact ⟨fun b hb => by simpa using h1 b hb, h2⟩
      · rw [upsertByUuid, if_neg hc, List.pairwise_cons]
        refine ⟨fun b hb => ?_, ih h2⟩
        rcases uuid_mem_upsert item b rest hb with hb' | hb'
        · rw [hb']; exact hc
        · rcases List.mem_map.mp hb' with ⟨a, ha, hae⟩
          rw [← hae]
          exact h1 a ha

/-- An upsert that matches an existing uuid does not change the length. -/
theorem upsertByUuid_length_of_mem (item : ConfigCommandExecutionResult)
    (items : List ConfigCommandExecutionResult)
    (h : ∃ a ∈ items, a.uuid = item.uuid) :
    (upsertByUuid item items).length = items.length := by
  induction items with
  | nil => simp at h
  | cons log rest ih =>
      by_cases hc : log.uuid = item.uuid
      · rw [upsertByUuid, if_pos hc]
        simp
      · rw [upsertByUuid, if_neg hc]
        rcases h with ⟨a, ha, hae⟩
        rcases List.mem_cons.mp ha with rfl | ha'
        · exact absurd hae hc
        · simp [ih ⟨a, ha', hae⟩]

/-- The truncation step only drops elements. -/
theorem truncateLogs_sublist (m : Nat) (items : List ConfigCommandExecutionResult) :
    (truncateLogs m items).Sublist items := by
  unfold truncateLogs pySliceLast
  split
  · split
    · exact List.Sublist.refl _
    · exact List.drop_sublist _ _
  · exact List.Sublist.refl _

/-- Dropping to the last `m` elements commutes with later appends followed by
the same last-`m` selection. -/
theorem drop_last_append {α : Type} (xs L : List α) (m : Nat) :
    ((xs.drop (xs.length - m)) ++ L).drop ((xs.drop (xs.length - m) ++ L).length - m)
      = (xs ++ L).drop ((xs ++ L).length - m) := by
  rcases le_or_lt xs.length m with h | h
  · rw [Nat.sub_eq_zero_of_le h, List.drop_zero]
  · have hd : xs.length - m ≤ xs.length := Nat.sub_le _ _
    rw [← List.drop_append_of_le_length hd, List.drop_drop]
    congr 1
    simp only [List.length_drop, List.length_append]
    omega

/-- One `save_log` step on a fresh uuid keeps exactly the last
`maxLogCount` elements of the appended list. -/
theorem save_log_items_fresh_step (maxc : Nat) (hm : 0 < maxc)
    (s : List ConfigCommandExecutionResult) (i : ConfigCommandExecutionResult)
    (hfresh : ∀ a ∈ s, a.uuid ≠ i.uuid) :
    save_log_items maxc s i = (s ++ [i]).drop ((s ++ [i]).length - maxc) := by
  unfold save_log_items truncateLogs
  rw [upsertByUuid_of_fresh i s hfresh]
  split
  · unfold pySliceLast
    rw [if_neg (Nat.pos_iff_ne_zero.mp hm)]
  · rename_i hlen
    have h0 : (s ++ [i]).length - maxc = 0 := by omega
    rw [h0, List.drop_zero]

/-- Folding `save_log` over fresh-uuid entries keeps exactly the last
`maxLogCount` of all inserted entries, in insertion order. -/
theorem foldl_save_log_items (maxc : Nat) (hm : 0 < maxc)
    (L : List ConfigCommandExecutionResult) :
    ∀ s : List ConfigCommandExecutionResult, s.length ≤ maxc →
      (s ++ L).Pairwise (fun a b => a.uuid ≠ b.uuid) →
      L.foldl (save_log_items maxc) s = (s ++ L).drop ((s ++ L).length - maxc) := by
  induction L with
  | nil =>
      intro s hs _
      rw [List.foldl_nil, List.append_nil, Nat.sub_eq_zero_of_le hs, List.drop_zero]
  | cons i L ih =>
      intro s hs hp
      have hfresh : ∀ a ∈ s, a.uuid ≠ i.uuid := by
        intro a ha
        exact (List.pairwise_append.mp hp).2.2 a ha i (by simp)
      rw [List.foldl_cons, save_log_items_fresh_step maxc hm s i hfresh]
      have hp' : (((s ++ [i]).drop ((s ++ [i]).length - maxc)) ++ L).Pairwise
          (fun a b => a.uuid ≠ b.uuid) := by
        have hsub : ((s ++ [i]).drop ((s ++ [i]).length - maxc)) ++ L
            |>.Sublist ((s ++ [i]) ++ L) :=
          List.Sublist.append (List.drop_sublist _ _) (List.Sublist.refl L)
        exact List.Pairwise.sublist hsub (by simpa using hp)
      have hlen : ((s ++ [i]).drop ((s ++ [i]).length - maxc)).length ≤ maxc := by
        simp only [List.length_drop]
        omega
      rw [ih _ hlen hp', drop_last_append (s ++ [i]) L maxc]
      simp

/-- C5: starting from an empty log, appending `N > max_log_count` entries
with pairwise-distinct uuids through `save_log` leaves exactly the
`max_log_count` most recently inserted entries, in insertion order (the
suffix of the insertion sequence), with the oldest evicted first. -/
theorem C5_log_rotation_keeps_most_recent (maxc : Nat)
    (L : List ConfigCommandExecutionResult) (hm : 0 < maxc)
    (hdist : L.Pairwise (fun a b => a.uuid ≠ b.uuid)) (hN : maxc < L.length) :
    L.foldl (save_log_items maxc) [] = L.drop (L.length - maxc)
    ∧ (L.foldl (save_log_items maxc) []).length = maxc := by
  have h := foldl_save_log_items maxc hm L [] (by simp) (by simpa using hdist)
  rw [List.nil_append] at h
  refine ⟨h, ?_⟩
  rw [h, List.length_drop]
  omega

/-- Witness for `C5_log_rotation_keeps_most_recent`: bound 1, two distinct
entries; the stored log afterwards is exactly the last entry. -/
theorem C5_log_rotation_witness :
    (0 < 1
      ∧ ([entryA, entryB].Pairwise (fun a b => a.uuid ≠ b.uuid))
      ∧ 1 < [entryA, entryB].length)
    ∧ ([entryA, entryB].foldl (save_log_items 1) []
        = [entryA, entryB].drop ([entryA, entryB].length - 1)
      ∧ ([entryA, entryB].foldl (save_log_items 1) []).length = 1) :=
  ⟨⟨by decide, by simp [entryA, entryB, List.pairwise_cons], by decide⟩,
    C5_log_rotation_keeps_most_recent 1 [entryA, entryB] (by decide)
      (by simp [entryA, entryB, List.pairwise_cons]) (by decide)⟩

/-- C9: `save_log`'s append is an upsert keyed by uuid: a matching stored
entry is rewritten in place (no second entry is inserted, the length is
unchanged), and a log whose entries have pairwise-distinct uuids still has
pairwise-distinct uuids after the append (including the truncation step). -/
theorem C9_upsert_preserves_distinct_uuids (maxLogCount : Nat)
    (items : List ConfigCommandExecutionResult) (item : ConfigCommandExecutionResult)
    (h : items.Pairwise (fun a b => a.uuid ≠ b.uuid)) :
    (save_log_items maxLogCount items item).Pairwise (fun a b => a.uuid ≠ b.uuid)
    ∧ ((∃ a ∈ items, a.uuid = item.uuid) →
        (upsertByUuid item items).length = items.length) :=
  ⟨List.Pairwise.sublist (truncateLogs_sublist _ _) (pairwise_upsertByUuid item items h),
    fun hmem => upsertByUuid_length_of_mem item items hmem⟩

/-- Witness for `C9_upsert_preserves_distinct_uuids`: a two-entry log with
distinct uuids, upserting a terminal update of the entry with uuid `"a"`. -/
theorem C9_upsert_witness :
    ([entryA, entryB].Pairwise (fun a b => a.uuid ≠ b.uuid))
    ∧ ((save_log_items 100 [entryA, entryB] { entryA with end_time := some 5 }).Pairwise
        (fun a b => a.uuid ≠ b.uuid)
      ∧ ((∃ a ∈ [entryA, entryB], a.uuid = ({ entryA with end_time := some 5 }
            : ConfigCommandExecutionResult).uuid) →
          (upsertByUuid { entryA with end_time := some 5 } [entryA, entryB]).length
            = [entryA, entryB].length)) :=
  ⟨by simp [entryA, entryB, List.pairwise_cons],
    C9_upsert_preserves_distinct_uuids 100 [entryA, entryB] { entryA with end_time := some 5 }
      (by simp [entryA, entryB, List.pairwise_cons])⟩

/-! ## Execution manager lemmas -/

theorem liveWorkerCount_cons (t : CommandThread) (rest : ManagerState) (cid : String) :
    liveWorkerCount (t :: rest) cid
      = liveWorkerCount rest cid + (if t.cmdId = cid then 1 else 0) := by
  unfold liveWorkerCount
  by_cases h : t.cmdId = cid <;> simp [List.filter_cons, h]

theorem liveWorkerCount_append_single (st : ManagerState) (t : CommandThread) (cid : String) :
    liveWorkerCount (st ++ [t]) cid
      = liveWorkerCount st cid + (if t.cmdId = cid then 1 else 0) := by
  unfold liveWorkerCount
  rw [List.filter_append]
  by_cases h : t.cmdId = cid <;> simp [h]

/-- Removing the first thread of a command id decrements its live count. -/
theorem liveWorkerCount_removeFirst_self (st : ManagerState) (cid : String) :
    liveWorkerCount (removeFirstById st cid) cid = liveWorkerCount st cid - 1 := by
  induction st with
  | nil => rfl
  | cons t rest ih =>
      by_cases h : t.cmdId = cid
      · rw [removeFirstById, if_pos h, liveWorkerCount_cons, if_pos h]
        omega
      · rw [removeFirstById, if_neg h, liveWorkerCount_cons, if_neg h,
          liveWorkerCount_cons, if_neg h, ih]
        omega

/-- Removing a thread of another command id leaves the count unchanged. -/
theorem liveWorkerCount_removeFirst_other (st : ManagerState) (cid cid' : String)
    (hne : cid' ≠ cid) :
    liveWorkerCount (removeFirstById st cid) cid' = liveWorkerCount st cid' := by
  induction st with
  | nil => rfl
  | cons t rest ih =>
      by_cases h : t.cmdId = cid
      · rw [removeFirstById, if_pos h, liveWorkerCount_cons,
          if_neg (by rw [h]; exact fun hh => hne hh.symm)]
        omega
      · rw [removeFirstById, if_neg h, liveWorkerCount_cons, liveWorkerCount_cons, ih]

/-- `ensure_command_status` either leaves the cleaned registry alone or
appends exactly one thread for the reconciled command. -/
theorem ensure_command_status_cases (st : ManagerState) (cmd : CommandCfg)
    (sys app : Bool) :
    ensure_command_status st cmd sys app = removeFirstById st cmd.id
    ∨ ∃ k, ensure_command_status st cmd sys app
        = removeFirstById st cmd.id ++ [⟨cmd.id, k⟩] := by
  unfold ensure_command_status
  split_ifs <;> first | exact Or.inl rfl | exact Or.inr ⟨_, rfl⟩

/-! ## Claim theorems: statuses, workers, aborts, statistics, log reads -/

/-- C1 (code bug): the persisted status enum of config.py defines
`RUNNING`, `STOPPED`, `FAILED`, `RUN` — not the `SUCCESS` and `ERROR`
members that `execute_command` (execution_manager.py lines 96, 98, 122,
135) assigns and compares.  Hence the attribute access raises and the
handler records every completed run — exit code 0 or not — as `FAILED`,
never as `SUCCESS` or `ERROR`.  Only the launch-failure third of the
claimed classification (`raised → FAILED`) behaves as claimed. -/
theorem C1_completed_run_status_code_bug :
    statusAttr "SUCCESS" = none ∧ statusAttr "ERROR" = none
    ∧ statusAttr "RUNNING" = some ConfigCommandExecutionStatus.RUNNING
    ∧ statusAttr "STOPPED" = some ConfigCommandExecutionStatus.STOPPED
    ∧ statusAttr "FAILED" = some ConfigCommandExecutionStatus.FAILED
    ∧ statusAttr "RUN" = some ConfigCommandExecutionStatus.RUN
    ∧ (execute_result "u" 0 1 (.completed ⟨42, 0, none, none⟩)).status
        = ConfigCommandExecutionStatus.FAILED
    ∧ (execute_result "u" 0 1 (.completed ⟨42, 3, none, none⟩)).status
        = ConfigCommandExecutionStatus.FAILED
    ∧ (execute_result "u" 0 1 (.raised "spawn failed")).status
        = ConfigCommandExecutionStatus.FAILED :=
  ⟨rfl, rfl, rfl, rfl, rfl, rfl, rfl, rfl, rfl⟩

/-- C2 counterexample: from a registry satisfying the at-most-one invariant
(one live recurring worker for `cmd-1`, as produced by
`ensure_command_status`), `start_command` (the run_now path) appends a
second worker for the same command id unconditionally: two live workers
coexist. -/
theorem C2_run_now_duplicates_worker :
    liveWorkerCount (ensure_command_status [] cmdDemo false false) "cmd-1" = 1
    ∧ liveWorkerCount (start_command (ensure_command_status [] cmdDemo false false) cmdDemo)
        "cmd-1" = 2 := by
  constructor <;> rfl

/-- C2 (amended): `ensure_command_status` preserves the at-most-one-worker
invariant (it stops the existing worker first and adds at most one), but
`start_command` always increments the live-worker count of its command id
by one — a run_now while a worker for the same command is live yields two
live workers. -/
theorem C2_registry_invariant_amended (st : ManagerState) (cmd : CommandCfg)
    (sys app : Bool) (hinv : ∀ cid, liveWorkerCount st cid ≤ 1) :
    (∀ cid, liveWorkerCount (ensure_command_status st cmd sys app) cid ≤ 1)
    ∧ liveWorkerCount (start_command st cmd) cmd.id = liveWorkerCount st cmd.id + 1 := by
  constructor
  · intro cid
    have hrem : liveWorkerCount (removeFirstById st cmd.id) cid ≤ liveWorkerCount st cid := by
      by_cases h : cid = cmd.id
      · subst h; rw [liveWorkerCount_removeFirst_self]; omega
      · rw [liveWorkerCount_removeFirst_other st cmd.id cid h]
    rcases ensure_command_status_cases st cmd sys app with hE | ⟨k, hE⟩ <;> rw [hE]
    · exact le_trans hrem (hinv cid)
    · rw [liveWorkerCount_append_single]
      by_cases h : cid = cmd.id
      · subst h
        rw [liveWorkerCount_removeFirst_self, if_pos rfl]
        have := hinv cmd.id
        omega
      · rw [liveWorkerCount_removeFirst_other st cmd.id cid h,
          if_neg (fun hh => h hh.symm)]
        have := hinv cid
        omega
  · rw [start_command, liveWorkerCount_append_single, if_pos rfl]

/-- Witness for `C2_registry_invariant_amended` on the empty registry and
the demo PERIOD command. -/
theorem C2_registry_invariant_witness :
    (∀ cid, liveWorkerCount ([] : ManagerState) cid ≤ 1)
    ∧ ((∀ cid, liveWorkerCount (ensure_command_status [] cmdDemo false false) cid ≤ 1)
      ∧ liveWorkerCount (start_command [] cmdDemo) cmdDemo.id
          = liveWorkerCount [] cmdDemo.id + 1) :=
  ⟨fun _ => Nat.zero_le 1,
    C2_registry_invariant_amended [] cmdDemo false false (fun _ => Nat.zero_le 1)⟩

/-- C4: when a worker is stopped while a run is in flight, no log entry
with a terminal status SUCCESS, ERROR or FAILED is written for that run
and the run does not alter the command's statistics.  This holds on every
trace of the code — indeed `execute_command` persists nothing for any
run, stopped or not: its body raises `AttributeError` at
execution_manager.py line 89 (`ConfigCommand` defines no `add_log`)
before `run_command` is ever invoked, so no run is ever in flight, and
the outer handler at lines 151-152 only logs the error.  The command's
log items and statistics are returned exactly as they were, for the
stopped-process outcome and for every other outcome alike. -/
theorem C4_stopped_run_writes_nothing (p : StoppedProcess) (maxc : Nat) (u : String)
    (s e : ℚ) (log : List ConfigCommandExecutionResult) (stats : CommandStats) :
    execute_command maxc u s e (.completed (run_command_on_stop p)) log stats = (log, stats)
    ∧ ∀ o : RunOutcome, execute_command maxc u s e o log stats = (log, stats) :=
  ⟨rfl, fun _ => rfl⟩

/-- C6 (code bug): recording a successful run updates `ok_runs`, `min` and
`max` as claimed, and a first successful run of 2.0 s gives
`ok_runs = 1`, `avg = min = max = 2.0`; but because `ok_runs` is
incremented *before* the average update (config.py line 300 vs 307), a
second successful run of 4.0 s after `(ok_runs, avg) = (1, 2.0)` yields
`avg = (2·2 + 4)/3 = 8/3`, not the claimed incremental mean
`(2·1 + 4)/2 = 3`. -/
theorem C6_avg_duration_code_bug :
    (set_execution_results statsOne itemDur4).map (fun c => c.ok_runs) = .ok 2
    ∧ (set_execution_results statsOne itemDur4).map (fun c => c.min_duration) = .ok (some 2)
    ∧ (set_execution_results statsOne itemDur4).map (fun c => c.max_duration) = .ok (some 4)
    ∧ (set_execution_results statsOne itemDur4).map (fun c => c.avg_duration)
        = .ok (some ((8 : ℚ) / 3))
    ∧ ((2 * 1 + 4 : ℚ) / (1 + 1) = 3)
    ∧ ¬ ((8 : ℚ) / 3 = 3)
    ∧ (set_execution_results statsFresh itemDur2).map
        (fun c => (c.ok_runs, c.avg_duration, c.min_duration, c.max_duration))
        = .ok (1, some 2, some 2, some 2) := by
  have h1 : set_execution_results statsOne itemDur4
      = .ok ⟨2, 2, 0, 0, some 10, none, none, some 2, some 4, some ((8 : ℚ) / 3)⟩ := by
    norm_num [set_execution_results, statsOne, itemDur4, pyGtOpt, pyLtOpt,
      ConfigCommandExecutionResult.duration, Except.instMonad, Except.bind, Except.pure,
      Bind.bind, Pure.pure]
    decide
  have h2 : set_execution_results statsFresh itemDur2
      = .ok ⟨1, 1, 0, 0, some 0, none, none, some 2, some 2, some 2⟩ := by
    norm_num [set_execution_results, statsFresh, itemDur2, pyGtOpt, pyLtOpt,
      ConfigCommandExecutionResult.duration, Except.instMonad, Except.bind, Except.pure,
      Bind.bind, Pure.pure]
    decide
  rw [h1, h2]
  refine ⟨rfl, rfl, rfl, rfl, by norm_num, by norm_num, rfl⟩

/-- C8 counterexample: the backup name for a corrupt log file does not
depend on the clock at all — reading at two different times produces the
identical backup — and it is the log path suffixed with the fresh random
UUID of config.py line 342, not a timestamped name. -/
theorem C8_backup_name_not_timestamped :
    get_logs "cmd.log.json" 1000 "3a7f" false ⟨.corrupt "broken-json", []⟩
      = get_logs "cmd.log.json" 987654321 "3a7f" false ⟨.corrupt "broken-json", []⟩
    ∧ (get_logs "cmd.log.json" 1000 "3a7f" false ⟨.corrupt "broken-json", []⟩).2.backups
      = [("cmd.log.json-3a7f", "broken-json")] :=
  ⟨rfl, rfl⟩

/-- C8 (amended: the backup is uuid-suffixed, not timestamped): a missing
log file reads as the empty log with the file system untouched; a corrupt
log file reads as the empty log after an attempt to rename the broken
file to `path ++ "-" ++ uuid` — on success the raw content is preserved
under the backup name (nothing is deleted), and when the rename itself
raises that error too is logged and swallowed (lines 346-347), the
corrupt file staying in place with no backup; a parseable file reads as
its contents; the read result never depends on the clock; and `get_logs`
is a total function — the source wraps the whole read in a catch-all
handler (config.py lines 321-347).  On the write side, only the
`file_obj.write` call of `save_logs` is guarded (lines 391-394): a write
failure is swallowed and `save_logs` returns normally, while a
directory-creation or open failure raises out of `save_logs`; any such
exception is caught at the worker's run boundary
(execution_manager.py lines 51, 151-152), so a persistence failure never
propagates out of the command run. -/
theorem C8_log_read_recovery_amended (path : String) (now : Int) (freshUuid : String)
    (raw : String) (bks : List (String × String)) (l : ConfigCommandLog)
    (maxc : Nat) (items : List ConfigCommandExecutionResult) :
    get_logs path now freshUuid false ⟨.missing, bks⟩ = (emptyCommandLog, ⟨.missing, bks⟩)
    ∧ get_logs path now freshUuid true ⟨.missing, bks⟩ = (emptyCommandLog, ⟨.missing, bks⟩)
    ∧ get_logs path now freshUuid false ⟨.corrupt raw, bks⟩
        = (emptyCommandLog, ⟨.missing, (path ++ "-" ++ freshUuid, raw) :: bks⟩)
    ∧ get_logs path now freshUuid true ⟨.corrupt raw, bks⟩
        = (emptyCommandLog, ⟨.corrupt raw, bks⟩)
    ∧ (∀ rf : Bool, get_logs path now freshUuid rf ⟨.parsed l, bks⟩ = (l, ⟨.parsed l, bks⟩))
    ∧ save_logs maxc items false false true = .writeFailedSwallowed
    ∧ save_logs maxc items true false false = .raised "OSError: makedirs"
    ∧ save_logs maxc items false true false = .raised "OSError: open"
    ∧ (∀ (msg : String) (st : List ConfigCommandExecutionResult × CommandStats),
        workerRunBoundary (Except.error msg) st = st)
    ∧ get_logs path 0 freshUuid false ⟨.corrupt raw, bks⟩
        = get_logs path now freshUuid false ⟨.corrupt raw, bks⟩ :=
  ⟨rfl, rfl, rfl, rfl, fun _ => rfl, rfl, rfl, rfl, fun _ _ => rfl, rfl⟩

end TrayRunner
